import Mathlib

/-!
# drone2: ICM-20948 driver and flight-state estimator

A shallow embedding of `devices/icm20948/icm20948.go` and
`flight-control/flight-states.go`.

Conventions of the embedding
* A Go `byte` is a `Nat` (values below 256); conversions and shifts that
  truncate in Go carry an explicit `% 256`.
* A Go `int64` is an `Int`; arithmetic that can wrap goes through `wrapInt64`.
* A Go `float64` is an element of an arbitrary scalar type `F` carrying the
  arithmetic the code uses; theorems about values are stated over exact
  arithmetic (a field, or the reals where `atan2` is needed), and where the
  non-finite values matter over `F64`, which has the infinities and NaN.
* A Go `error` is an `Option String`, `none` being `nil`.
* The SPI connection is an explicit environment: a log of the transactions
  issued so far and a response function.
-/

namespace Drone2

/-! ## Data types -/

/-- Go `error`: `none` is `nil`. -/
abbrev GoError := Option String

/-- One call of `spi.Conn.Tx(w, r)` as seen on the bus: the bytes transmitted
and the length of the receive buffer (0 for a nil buffer). -/
structure TxRecord where
  w : List Nat
  rlen : Nat
deriving DecidableEq, Repr

/-- The bus connection `spi.Conn`: the transactions issued so far, and the
behaviour of the device on the other end, which answers a transmission (given
the history) with response bytes and an error value. -/
structure SpiConn where
  log : List TxRecord
  respond : List TxRecord → List Nat → List Nat × GoError

/-- Embeds `types.XYZ`. -/
structure XYZ (F : Type) where
  X : F
  Y : F
  Z : F
deriving DecidableEq, Repr

/-- Embeds `threeAxis`: per-sensor axis state. -/
structure threeAxis (F Cfg : Type) where
  data : XYZ F
  prevData : XYZ F
  dataDiff : F
  config : Cfg

/-- Embeds `Device`: the driver state (the `SPI` port handle carries no state of its
own and is left out). -/
structure Device (F Cfg : Type) where
  Conn : SpiConn
  regbank : Nat
  acc : threeAxis F Cfg
  gyro : threeAxis F Cfg
  lastReading : Int
  duration : Int

/-- Embeds `Register`: a bank and an address within the bank. -/
structure Register where
  address : Nat
  bank : Nat
deriving DecidableEq, Repr

/-! ## Bus transaction layer -/

/-- A callee writing into a caller-owned buffer: it overwrites a prefix of the
buffer with (byte-truncated) response bytes and cannot change its length. -/
def fillBuffer (r resp : List Nat) : List Nat :=
  ((resp.take r.length).map (fun b => b % 256)) ++ r.drop resp.length

/-- Embeds `Conn.Tx(w, r)`: one full-duplex transaction. Returns the connection with
the transaction logged, the receive buffer after the call, and the error. -/
def SpiConn.Tx (c : SpiConn) (w r : List Nat) : SpiConn × List Nat × GoError :=
  let ans := c.respond c.log w
  ({ c with log := c.log ++ [⟨w, r.length⟩] }, fillBuffer r ans.1, ans.2)

variable {F Cfg : Type}

/-- Embeds `reg`: split a 16-bit logical register id. -/
def reg (r : Nat) : Register :=
  { address := r % 256, bank := (r >>> 8) % 256 }

/-- Embeds `Device.readReg`. -/
def Device.readReg (dev : Device F Cfg) (address : Nat) (len : Nat) :
    Device F Cfg × List Nat × GoError :=
  let w := (List.replicate (len + 1) 0).set 0 ((address &&& 0x7F) ||| 0x80)
  let r := List.replicate (len + 1) 0
  let res := dev.Conn.Tx w r
  ({ dev with Conn := res.1 }, res.2.1.drop 1, res.2.2)

/-- Embeds `Device.writeReg`. -/
def Device.writeReg (dev : Device F Cfg) (address : Nat) (data : List Nat) :
    Device F Cfg × GoError :=
  if data.length = 0 then (dev, none)
  else
    let w := [address &&& 0x7F] ++ data
    let res := dev.Conn.Tx w []
    ({ dev with Conn := res.1 }, res.2.2)

/-- Embeds `Device.selRegisterBank`; `REG_BANK_SEL` is the bank-select register
address, a constant declared outside the files at hand. -/
def Device.selRegisterBank (REG_BANK_SEL : Nat) (dev : Device F Cfg) (regbank : Nat) :
    Device F Cfg × GoError :=
  if regbank = dev.regbank then (dev, none)
  else
    let dev1 := { dev with regbank := regbank }
    dev1.writeReg REG_BANK_SEL [((regbank <<< 4) % 256) &&& 0x30]

/-- Embeds `Device.readRegister`: the result of `selRegisterBank` is discarded. -/
def Device.readRegister (REG_BANK_SEL : Nat) (dev : Device F Cfg) (register : Nat) (len : Nat) :
    Device F Cfg × List Nat × GoError :=
  let rg := reg register
  let dev1 := (dev.selRegisterBank REG_BANK_SEL rg.bank).1
  dev1.readReg rg.address len

/-- Embeds `Device.writeRegister`: the result of `selRegisterBank` is discarded. -/
def Device.writeRegister (REG_BANK_SEL : Nat) (dev : Device F Cfg) (register : Nat)
    (data : List Nat) : Device F Cfg × GoError :=
  if data.length = 0 then (dev, none)
  else
    let rg := reg register
    let dev1 := (dev.selRegisterBank REG_BANK_SEL rg.bank).1
    dev1.writeReg rg.address data

/-- The transactions a call added to the bus log. -/
def issued (before after : SpiConn) : List TxRecord :=
  after.log.drop before.log.length

/-! ## Timing and sample read -/

/-- Two's-complement wrap of an integer into the `int64` range. -/
def wrapInt64 (x : Int) : Int :=
  (x + 2 ^ 63) % 2 ^ 64 - 2 ^ 63

/-- Embeds `Device.Start`; `now` is the value of `time.Now().UnixNano()`. -/
def Device.Start (dev : Device F Cfg) (now : Int) : Device F Cfg :=
  { dev with lastReading := now }

/-- Embeds `Device.ReadRawData`; `ACCEL_XOUT_H` is a register constant declared
outside the files at hand. -/
def Device.ReadRawData (REG_BANK_SEL ACCEL_XOUT_H : Nat) (dev : Device F Cfg) :
    Device F Cfg × List Nat × GoError :=
  dev.readRegister REG_BANK_SEL ACCEL_XOUT_H 12

/-- Embeds `threeAxis.GetData`. -/
def threeAxis.GetData (a : threeAxis F Cfg) : XYZ F :=
  a.data

/-- Embeds `Device.ReadData`; `now` is the value of `time.Now().UnixNano()` taken in
the call. `processAccelerometerData` and `processGyroscopeData` are declared
outside the files at hand: they decode a raw block into the axis state of
their sensor and are taken as parameters acting on that axis state. -/
def Device.ReadData (REG_BANK_SEL ACCEL_XOUT_H : Nat)
    (processAccelerometerData processGyroscopeData :
      threeAxis F Cfg → List Nat → threeAxis F Cfg)
    (dev : Device F Cfg) (now : Int) :
    Device F Cfg × XYZ F × XYZ F × GoError :=
  let res := dev.ReadRawData REG_BANK_SEL ACCEL_XOUT_H
  let dev1 := res.1
  let data := res.2.1
  let dev2 := { dev1 with duration := wrapInt64 (dev1.lastReading - now) }
  let dev3 := { dev2 with lastReading := now }
  let dev4 := { dev3 with acc := processAccelerometerData dev3.acc data }
  let dev5 := { dev4 with gyro := processGyroscopeData dev4.gyro (data.drop 6) }
  (dev5, dev5.acc.GetData, dev5.gyro.GetData, res.2.2)

/-! ## Axis state -/

/-- Embeds `threeAxis.SetData`; `CalcVectorLen` is `utils.CalcVectorLen`, the length
of a vector, declared outside the files at hand. -/
def threeAxis.SetData [Sub F] (CalcVectorLen : XYZ F → F) (a : threeAxis F Cfg)
    (x y z : F) : threeAxis F Cfg :=
  let a1 := { a with prevData := a.data }
  let a2 := { a1 with data := { X := x, Y := y, Z := z } }
  { a2 with dataDiff := CalcVectorLen a2.data - CalcVectorLen a2.prevData }

/-- Embeds `threeAxis.GetDiff`. -/
def threeAxis.GetDiff (a : threeAxis F Cfg) : F :=
  a.dataDiff

/-! ## Flight states -/

/-- Embeds `types.Rotations`. -/
structure Rotations (F : Type) where
  Roll : F
  Pitch : F
  Yaw : F
deriving DecidableEq, Repr

/-- One sensor's part of `imu.ImuData` (the field read by the estimator). -/
structure SensorData (F : Type) where
  Data : XYZ F
deriving DecidableEq, Repr

/-- Embeds `imu.ImuData`, as far as the estimator reads it. -/
structure ImuData (F : Type) where
  Acc : SensorData F
  Gyro : SensorData F
  ReadInterval : Int
  ReadTime : Int
deriving DecidableEq, Repr

/-- Embeds `types.FlightConfig`, as far as the estimator reads it. -/
structure FlightConfig (F : Type) where
  AccLowPassFilterCoefficient : F
deriving DecidableEq, Repr

/-- Embeds `FlightStates` (the receive-only channel field is left out). -/
structure FlightStates (F : Type) where
  Config : FlightConfig F
  imuData : ImuData F
  accRotations : Rotations F
  gyroRotations : Rotations F
  rotations : Rotations F
deriving DecidableEq, Repr

/-- Embeds `FlightStates.Reset`. -/
def FlightStates.Reset [Zero F] (fs : FlightStates F) : FlightStates F :=
  { fs with gyroRotations := { Roll := 0, Pitch := 0, Yaw := 0 } }

/-- Embeds `goDurToDt`: nanoseconds to seconds. -/
def goDurToDt [Field F] (d : Int) : F :=
  (d : F) / 1000000000

/-- Embeds `getOffset`. -/
def getOffset [Mul F] (offset dt : F) : F :=
  dt * offset

/-- Embeds `accelerometerDataToRollPitch`; `Atan2` is `math.Atan2` and `RadToDeg` is
`utils.RadToDeg`. -/
def accelerometerDataToRollPitch [Neg F] (Atan2 : F → F → F) (RadToDeg : F → F)
    (data : XYZ F) : F × F :=
  (RadToDeg (Atan2 data.Y data.Z), -RadToDeg (Atan2 data.X data.Z))

/-- Embeds `gyroscopeDataToRollPitchYawChange`. -/
def gyroscopeDataToRollPitchYawChange [Field F] (wg : XYZ F) (readingInterval : Int) :
    F × F × F :=
  let dt : F := goDurToDt readingInterval
  (wg.X * dt, wg.Y * dt, wg.X * dt)

/-- Embeds `FlightStates.setAccRotations`; the coefficient is not used. -/
def FlightStates.setAccRotations [Field F] (Atan2 : F → F → F) (RadToDeg : F → F)
    (fs : FlightStates F) (_lowPassFilterCoefficient : F) : FlightStates F :=
  let rp := accelerometerDataToRollPitch Atan2 RadToDeg fs.imuData.Acc.Data
  { fs with accRotations := { Roll := rp.1, Pitch := rp.2, Yaw := 0 } }

/-- Embeds `FlightStates.setGyroRotations`. -/
def FlightStates.setGyroRotations [Field F] (fs : FlightStates F) : FlightStates F :=
  let curr := fs.gyroRotations
  let d := gyroscopeDataToRollPitchYawChange fs.imuData.Gyro.Data fs.imuData.ReadInterval
  { fs with gyroRotations :=
      { Roll := curr.Roll + d.1, Pitch := curr.Pitch + d.2.1, Yaw := curr.Yaw + d.2.2 } }

/-- Embeds `FlightStates.setRotations`. -/
def FlightStates.setRotations (fs : FlightStates F) : FlightStates F :=
  { fs with rotations :=
      { Roll := fs.accRotations.Roll, Pitch := fs.accRotations.Pitch,
        Yaw := fs.accRotations.Yaw } }

/-- Embeds `FlightStates.Set`. -/
def FlightStates.Set [Field F] (Atan2 : F → F → F) (RadToDeg : F → F)
    (fs : FlightStates F) (imuData : ImuData F) : FlightStates F :=
  let fs1 := { fs with imuData := imuData }
  let fs2 := fs1.setAccRotations Atan2 RadToDeg fs1.Config.AccLowPassFilterCoefficient
  let fs3 := fs2.setGyroRotations
  fs3.setRotations

/-- Embeds `FlightStates.ImuDataToJson`: `fmt.Sprintf` with the literal pieces of the
format string and the formatted arguments in order; `fmt2f` renders the verb
`%0.2f`, and `%d` of an `int64` is its decimal representation. -/
def FlightStates.ImuDataToJson (fmt2f : F → String) (fs : FlightStates F) : String :=
  "\x7b\"accRoll\":" ++ fmt2f fs.accRotations.Roll
    ++ ",\"accPitch\":" ++ fmt2f fs.accRotations.Pitch
    ++ ",\"accYaw\":" ++ fmt2f fs.accRotations.Yaw
    ++ ",\"gyroRoll\":" ++ fmt2f fs.gyroRotations.Roll
    ++ ",\"gyroPitch\":" ++ fmt2f fs.gyroRotations.Pitch
    ++ ",\"gyroYaw\":" ++ fmt2f fs.gyroRotations.Yaw
    ++ ",\"roll\":" ++ fmt2f fs.rotations.Roll
    ++ ",\"ritch\":" ++ fmt2f fs.rotations.Pitch
    ++ ",\"yaw\":" ++ fmt2f fs.rotations.Yaw
    ++ ",\"dT\":" ++ toString fs.imuData.ReadInterval
    ++ ",\"T\":" ++ toString fs.imuData.ReadTime
    ++ "\x7d"

/-! ## Reading the output and the library functions on exact values -/

/-- Two decimal digits of a number below 100. -/
def twoDigits (n : Nat) : String :=
  (if n < 10 then "0" else "") ++ toString n

/-- The verb `%0.2f` on an exactly represented finite value: the value rounded
to hundredths, ties to even, with a minus sign for a negative value. -/
def fmt2f (q : ℚ) : String :=
  let m := q.num.natAbs * 100
  let lo := m / q.den
  let rem := m % q.den
  let n := if q.den < 2 * rem ∨ (2 * rem = q.den ∧ lo % 2 = 1) then lo + 1 else lo
  (if q.num < 0 then "-" else "") ++ toString (n / 100) ++ "." ++ twoDigits (n % 100)

/-- The double-quoted pieces of a text, in order. -/
def quotedParts : List Char → Option (List Char) → List String
  | [], _ => []
  | c :: cs, none => if c = Char.ofNat 34 then quotedParts cs (some []) else quotedParts cs none
  | c :: cs, some acc =>
      if c = Char.ofNat 34 then String.mk acc.reverse :: quotedParts cs none
      else quotedParts cs (some (c :: acc))

/-- The keys of a flat JSON object whose values are numbers: its quoted pieces. -/
def jsonKeys (s : String) : List String :=
  quotedParts s.data none

/-- The address byte of the first transaction in a list of transactions. -/
def transmittedAddress (recs : List TxRecord) : Option Nat :=
  recs.head?.bind (fun t => t.w.head?)

/-- Modelled from the spec: `utils.RadToDeg` is not among the files at hand;
the spec has the tilt angles "converted to degrees", so it is the conversion
from radians to degrees, with `pi` the value of `math.Pi`. -/
def RadToDeg [Field F] (pi : F) (rad : F) : F :=
  rad * 180 / pi

/-! ## Concrete inputs -/

/-- A bus that answers every transaction with zero bytes and no error. -/
def quietBus : SpiConn :=
  { log := [], respond := fun _ w => (List.replicate w.length 0, none) }

/-- A bus whose first transaction fails and whose later ones succeed,
answering `0xEA` after the echo slot. -/
def failFirstBus : SpiConn :=
  { log := []
    respond := fun hist _ => if hist.length = 0 then ([], some "EIO") else ([0, 0xEA], none) }

/-- The device as `NewICM20948Driver` builds it on a given connection. -/
def freshDevice [Zero F] (conn : SpiConn) (accConfig gyroConfig : Cfg) : Device F Cfg :=
  { Conn := conn
    regbank := 0xFF
    acc := { data := ⟨0, 0, 0⟩, prevData := ⟨0, 0, 0⟩, dataDiff := 0, config := accConfig }
    gyro := { data := ⟨0, 0, 0⟩, prevData := ⟨0, 0, 0⟩, dataDiff := 0, config := gyroConfig }
    lastReading := 0
    duration := 0 }

/-- A fresh device on the quiet bus. -/
def quietDevice : Device ℚ Unit :=
  freshDevice quietBus () ()

/-- A fresh device on the bus whose first transaction fails. -/
def failFirstDevice : Device ℚ Unit :=
  freshDevice failFirstBus () ()

/-- A flight state with exactly representable values. -/
def sampleFlightStates : FlightStates ℚ :=
  { Config := ⟨mkRat 1 2⟩
    imuData := ⟨⟨⟨0, 0, 1⟩⟩, ⟨⟨1, 2, 3⟩⟩, -500, 1500⟩
    accRotations := ⟨0, mkRat (-241) 8, 0⟩
    gyroRotations := ⟨1, mkRat 5 2, mkRat 1 8⟩
    rotations := ⟨mkRat 3 8, mkRat (-241) 8, 0⟩ }

/-! ## A model of float64 with its non-finite values -/

/-- A `float64` value: a finite value, an infinity or NaN. Finite values are
kept exact: rounding and overflow of finite results are not modelled (neither
touches `n - n` for a finite `n`, which IEEE 754 gives as zero). -/
inductive F64 where
  | finite (q : ℚ)
  | posInf
  | negInf
  | nan
deriving DecidableEq

/-- Whether a `float64` value is finite: neither an infinity nor NaN. -/
def F64.isFinite : F64 → Bool
  | .finite _ => true
  | _ => false

/-- IEEE 754 subtraction: NaN propagates, an infinity minus itself is NaN, and
an infinity otherwise wins with its sign (reversed on the right). -/
def F64.sub : F64 → F64 → F64
  | .nan, _ => .nan
  | _, .nan => .nan
  | .finite a, .finite b => .finite (a - b)
  | .finite _, .posInf => .negInf
  | .finite _, .negInf => .posInf
  | .posInf, .posInf => .nan
  | .posInf, _ => .posInf
  | .negInf, .negInf => .nan
  | .negInf, _ => .negInf

/-- Subtraction on the float64 model. -/
instance instSubF64 : Sub F64 :=
  ⟨F64.sub⟩

/-- Zero of the float64 model. -/
instance instZeroF64 : Zero F64 :=
  ⟨.finite 0⟩

/-- The largest natural number whose square is at most `n`. -/
def natSqrtFloor (n : Nat) : Nat :=
  ((List.range (n + 1)).filter (fun k => k * k ≤ n)).length - 1

/-- A square root on non-negative rationals, exact on squares of rationals and
rounded down to a multiple of `1 / den` otherwise. -/
def sqrtFloor (q : ℚ) : ℚ :=
  mkRat (natSqrtFloor (q.num.natAbs * q.den)) q.den

/-- Modelled from the spec: `utils.CalcVectorLen` is not among the files at
hand; the spec has it as the length of a vector. On the float64 model, the
square root of the sum of squares: NaN when a component is NaN, otherwise
+Inf when a component is infinite, otherwise the finite value `sqrt` gives,
`sqrt` standing for `math.Sqrt` on finite values. -/
def CalcVectorLen (sqrt : ℚ → ℚ) (v : XYZ F64) : F64 :=
  match v.X, v.Y, v.Z with
  | .finite x, .finite y, .finite z => .finite (sqrt (x * x + y * y + z * z))
  | x, y, z =>
      if x = .nan ∨ y = .nan ∨ z = .nan then .nan else .posInf

/-- The axis state of a freshly built device, on the float64 model. -/
def floatAxis : threeAxis F64 Unit :=
  { data := ⟨0, 0, 0⟩, prevData := ⟨0, 0, 0⟩, dataDiff := 0, config := () }

/-- The flight state with the acceleration of its stored sample replaced. -/
def FlightStates.withAcc (fs : FlightStates F) (v : XYZ F) : FlightStates F :=
  { fs with imuData := { fs.imuData with Acc := ⟨v⟩ } }

/-- The flight state with the gyroscope data and read interval of its stored
sample replaced. -/
def FlightStates.withGyro (fs : FlightStates F) (wg : XYZ F) (readInterval : Int) :
    FlightStates F :=
  { fs with imuData := { fs.imuData with Gyro := ⟨wg⟩, ReadInterval := readInterval } }

/-! ## Driver construction, identification and initialisation -/

/-- Embeds the table `accelerometerSensitivity` as `init` fills it: a Go map
with the keys 0 to 3 (`none` for a key the map does not hold). The four
`SENSITIVITY` constants are declared outside the files at hand. -/
def accelerometerSensitivity (SENSITIVITY_0 SENSITIVITY_1 SENSITIVITY_2 SENSITIVITY_3 : F) :
    Int → Option F
  | 0 => some SENSITIVITY_0
  | 1 => some SENSITIVITY_1
  | 2 => some SENSITIVITY_2
  | 3 => some SENSITIVITY_3
  | _ => none

/-- Embeds the table `gyroFullScale` as `init` fills it: a Go map with the
keys 0 to 3. The four `SCALE` constants are declared outside the files at
hand. -/
def gyroFullScale (SCALE_0 SCALE_1 SCALE_2 SCALE_3 : F) : Int → Option F
  | 0 => some SCALE_0
  | 1 => some SCALE_1
  | 2 => some SCALE_2
  | 3 => some SCALE_3
  | _ => none

/-- Embeds `NewICM20948Driver`. `NewSPI` stands for `sysfs.NewSPI` and
`Connect` for the port's `Connect` at the fixed clock rate, mode and word
size; each returns its result together with an error. The result is the
device pointer (`none` for `nil`) and the error. -/
def NewICM20948Driver [Zero F] {P DCfg : Type} (NewSPI : Int → Int → P × GoError)
    (Connect : P → SpiConn × GoError) (busNumber chipSelect : Int) (_config : DCfg)
    (accConfig gyroConfig : Cfg) : Option (Device F Cfg) × GoError :=
  let d := NewSPI busNumber chipSelect
  if d.2 ≠ none then (none, d.2)
  else
    let conn := Connect d.1
    if conn.2 ≠ none then (none, conn.2)
    else (some (freshDevice conn.1 accConfig gyroConfig), none)

/-- Go slicing `data[i:]`: `none` stands for the run-time panic when `i`
exceeds the length. -/
def goSliceFrom (data : List Nat) (i : Nat) : Option (List Nat) :=
  if i ≤ data.length then some (data.drop i) else none

/-- Embeds `Device.WhoAmI`; `WHO_AM_I` is a register constant declared outside
the files at hand. `none` stands for the run-time panic of `data[0]` on an
empty slice. -/
def Device.WhoAmI (REG_BANK_SEL WHO_AM_I : Nat) (dev : Device F Cfg) :
    Option (Device F Cfg × String × Nat × GoError) :=
  let res := dev.readRegister REG_BANK_SEL WHO_AM_I 1
  match res.2.1[0]? with
  | none => none
  | some id => some (res.1, "ICM-20948", id, res.2.2)

/-- Embeds `Device.InitDevice`, the settle delays left out; `PWR_MGMT_1` is a
register constant and `InitAccelerometer`, `InitGyroscope` are methods declared
outside the files at hand. `none` stands for the run-time panic of `data[0]`
on an empty slice; the error returned is that of the last step. -/
def Device.InitDevice (REG_BANK_SEL PWR_MGMT_1 : Nat)
    (InitAccelerometer InitGyroscope : Device F Cfg → Device F Cfg × GoError)
    (dev : Device F Cfg) : Option (Device F Cfg × GoError) :=
  let r1 := dev.writeRegister REG_BANK_SEL PWR_MGMT_1 [0x80]
  let r2 := r1.1.readRegister REG_BANK_SEL PWR_MGMT_1 1
  match r2.2.1[0]? with
  | none => none
  | some d0 =>
      let config := d0 &&& 0xBF
      let r3 := r2.1.writeRegister REG_BANK_SEL PWR_MGMT_1 [config, 0x00]
      let r4 := InitAccelerometer r3.1
      let r5 := InitGyroscope r4.1
      some (r5.1, r5.2)

/-! ## Sequences of register accesses -/

/-- One register access through the bank selector. -/
inductive Access where
  | read (register len : Nat)
  | write (register : Nat) (data : List Nat)
deriving DecidableEq, Repr

/-- The logical register id an access names. -/
def Access.register : Access → Nat
  | .read r _ => r
  | .write r _ => r

/-- Whether an access reaches the bus: a write needs a non-empty payload. -/
def Access.hasPayload : Access → Bool
  | .read _ _ => true
  | .write _ data => data.length ≠ 0

/-- The data transaction of an access, as it appears on the bus. -/
def Access.dataTx : Access → TxRecord
  | .read r n => ⟨(((reg r).address &&& 0x7F) ||| 0x80) :: List.replicate n 0, n + 1⟩
  | .write r data => ⟨((reg r).address &&& 0x7F) :: data, 0⟩

/-- The device after one access: `readRegister` or `writeRegister`. -/
def Device.access (REG_BANK_SEL : Nat) (dev : Device F Cfg) : Access → Device F Cfg
  | .read r n => (dev.readRegister REG_BANK_SEL r n).1
  | .write r data => (dev.writeRegister REG_BANK_SEL r data).1

/-- The device after a sequence of accesses, in order. -/
def Device.accesses (REG_BANK_SEL : Nat) (dev : Device F Cfg) (accs : List Access) :
    Device F Cfg :=
  accs.foldl (Device.access REG_BANK_SEL) dev

/-- The device state on which an access performs its data transaction: the
one `selRegisterBank` leaves. -/
def Device.atDataTx (REG_BANK_SEL : Nat) (dev : Device F Cfg) (a : Access) : Device F Cfg :=
  (dev.selRegisterBank REG_BANK_SEL (reg a.register).bank).1

/-! ## Acquisition loop and delivery channel -/

/-- Where the acquisition goroutine of `createImuDataChannel` stands: at the
top of its loop, about to call `GetRotations`, or at the channel send with the
sample in hand. -/
inductive LoopPoint (R : Type) where
  | top
  | send (rotations : R)
deriving DecidableEq, Repr

/-- The delivery channel with its producer and consumer: the channel's
capacity and buffer (oldest first), the IMU state, the producer's position,
and two histories: the samples `GetRotations` returned with a nil error and
the samples the consumer received. -/
structure ImuPipeline (I R : Type) where
  cap : Nat
  buf : List R
  imu : I
  point : LoopPoint R
  produced : List R
  received : List R

/-- Embeds `createImuDataChannel`: a channel of capacity 1, empty, and the
goroutine at the top of its loop; `imu` is the IMU as `initiateIMU` and
`ResetReadingTimes` leave it. -/
def createImuDataChannel {I R : Type} (imu : I) : ImuPipeline I R :=
  { cap := 1, buf := [], imu := imu, point := .top, produced := [], received := [] }

/-- One step of the acquisition goroutine. At the top of the loop it calls
`GetRotations` and, on a nil error, moves to the send with the sample; on an
error it stays at the top of the loop. At the send it appends the sample to
the channel when there is room, and otherwise stays blocked. -/
def ImuPipeline.producerStep {I R : Type} (GetRotations : I → I × R × GoError)
    (s : ImuPipeline I R) : ImuPipeline I R :=
  match s.point with
  | .top =>
      let res := GetRotations s.imu
      if res.2.2 = none then
        { s with imu := res.1, point := .send res.2.1, produced := s.produced ++ [res.2.1] }
      else { s with imu := res.1 }
  | .send rotations =>
      if s.buf.length < s.cap then { s with buf := s.buf ++ [rotations], point := .top }
      else s

/-- One receive by the consumer: it takes the oldest sample, and stays blocked
on an empty channel. -/
def ImuPipeline.consumerStep {I R : Type} (s : ImuPipeline I R) : ImuPipeline I R :=
  match s.buf with
  | [] => s
  | v :: rest => { s with buf := rest, received := s.received ++ [v] }

/-- Who moves next. -/
inductive Actor where
  | producer
  | consumer
deriving DecidableEq, Repr

/-- One scheduled step. -/
def ImuPipeline.step {I R : Type} (GetRotations : I → I × R × GoError)
    (s : ImuPipeline I R) : Actor → ImuPipeline I R
  | .producer => s.producerStep GetRotations
  | .consumer => s.consumerStep

/-- The pipeline after a schedule of steps. -/
def ImuPipeline.run {I R : Type} (GetRotations : I → I × R × GoError)
    (s : ImuPipeline I R) (schedule : List Actor) : ImuPipeline I R :=
  schedule.foldl (ImuPipeline.step GetRotations) s

/-- The sample the producer holds at the send, if any. -/
def LoopPoint.inHand {R : Type} : LoopPoint R → List R
  | .top => []
  | .send rotations => [rotations]

/-- A port opener that always succeeds. -/
def openPort (_busNumber _chipSelect : Int) : Unit × GoError :=
  ((), none)

/-- A connect that always succeeds, onto the quiet bus. -/
def connectQuiet (_port : Unit) : SpiConn × GoError :=
  (quietBus, none)

/-- A port opener that always fails. -/
def refusePort (_busNumber _chipSelect : Int) : Unit × GoError :=
  ((), some "no such device")

/-! ## Helper lemmas -/

/-- A register read leaves the stored timestamp alone. -/
theorem readRegister_lastReading (K : Nat) (dev : Device F Cfg) (r n : Nat) :
    (dev.readRegister K r n).1.lastReading = dev.lastReading := by
  unfold Device.readRegister Device.selRegisterBank Device.writeReg Device.readReg
  by_cases h : (reg r).bank = dev.regbank <;> simp [h]

/-- The argument of the point (1, 0) is zero. -/
theorem arg_unit_x : Complex.arg ⟨1, 0⟩ = 0 := by
  have h : (⟨1, 0⟩ : ℂ) = 1 := by apply Complex.ext <;> simp
  rw [h, Complex.arg_one]

/-- The argument of the point (0, 1) is a quarter turn. -/
theorem arg_unit_y : Complex.arg ⟨0, 1⟩ = Real.pi / 2 := by
  have h : (⟨0, 1⟩ : ℂ) = Complex.I := by apply Complex.ext <;> simp
  rw [h, Complex.arg_I]

/-- The vector (3, 4, 0) has length 5 on the float64 model. -/
theorem CalcVectorLen_three_four :
    CalcVectorLen sqrtFloor ⟨.finite 3, .finite 4, .finite 0⟩ = .finite 5 := by
  have h : (3 : ℚ) * 3 + 4 * 4 + 0 * 0 = 25 := by norm_num
  have hn : natSqrtFloor 25 = 5 := by decide
  have hs : sqrtFloor 25 = 5 := by
    simp [sqrtFloor, hn]
  simp only [CalcVectorLen, h, hs]

/-! ## Bank selector and bus transaction layer -/

/-- C1: `selRegisterBank b` with `b` equal to the recorded bank returns the
device unchanged with a nil error and issues no transaction; with `b` different
it issues exactly one transaction, a write of the bank-select payload to the
bank-select register address, and the recorded bank becomes `b`. -/
theorem selRegisterBank_contract (REG_BANK_SEL : Nat) (dev : Device F Cfg) (b : Nat) :
    (b = dev.regbank →
      dev.selRegisterBank REG_BANK_SEL b = (dev, none) ∧
      issued dev.Conn (dev.selRegisterBank REG_BANK_SEL b).1.Conn = []) ∧
    (b ≠ dev.regbank →
      issued dev.Conn (dev.selRegisterBank REG_BANK_SEL b).1.Conn
        = [⟨[REG_BANK_SEL &&& 0x7F, ((b <<< 4) % 256) &&& 0x30], 0⟩] ∧
      (dev.selRegisterBank REG_BANK_SEL b).1.regbank = b) := by
  constructor
  · intro h
    simp [Device.selRegisterBank, h, issued]
  · intro h
    simp [Device.selRegisterBank, h, issued, Device.writeReg, SpiConn.Tx]

/-- C1 at a fresh device (recorded bank 0xFF): selecting bank 0 issues the one
bank-select write and records bank 0; selecting bank 0xFF changes nothing. -/
theorem selRegisterBank_contract_witness :
    (issued quietDevice.Conn (quietDevice.selRegisterBank 0x7F 0).1.Conn
        = [⟨[0x7F &&& 0x7F, ((0 <<< 4) % 256) &&& 0x30], 0⟩] ∧
      (quietDevice.selRegisterBank 0x7F 0).1.regbank = 0) ∧
    (quietDevice.selRegisterBank 0x7F 0xFF = (quietDevice, none) ∧
      issued quietDevice.Conn (quietDevice.selRegisterBank 0x7F 0xFF).1.Conn = []) :=
  ⟨(selRegisterBank_contract 0x7F quietDevice 0).2 (by decide),
   (selRegisterBank_contract 0x7F quietDevice 0xFF).1 (by decide)⟩

/-- C4: `readReg address n` issues exactly one transaction; it transmits the
`n + 1` bytes made of the address byte and `n` zero bytes, with a receive
buffer of `n + 1` bytes; the result is that buffer after the transaction
without its first byte, hence `n` bytes, and the error is the transaction's. -/
theorem readReg_single_transaction (dev : Device F Cfg) (address n : Nat) :
    issued dev.Conn (dev.readReg address n).1.Conn
        = [⟨((address &&& 0x7F) ||| 0x80) :: List.replicate n 0, n + 1⟩] ∧
    (((address &&& 0x7F) ||| 0x80) :: List.replicate n 0).length = n + 1 ∧
    (dev.readReg address n).2.1
        = (fillBuffer (List.replicate (n + 1) 0)
            (dev.Conn.respond dev.Conn.log
              (((address &&& 0x7F) ||| 0x80) :: List.replicate n 0)).1).tail ∧
    (dev.readReg address n).2.1.length = n ∧
    (dev.readReg address n).2.2
        = (dev.Conn.respond dev.Conn.log
            (((address &&& 0x7F) ||| 0x80) :: List.replicate n 0)).2 := by
  have hw : (List.replicate (n + 1) 0).set 0 ((address &&& 0x7F) ||| 0x80)
      = ((address &&& 0x7F) ||| 0x80) :: List.replicate n 0 := by
    simp [List.replicate_succ]
  refine ⟨?_, ?_, ?_, ?_, ?_⟩
  · simp [Device.readReg, SpiConn.Tx, issued, hw]
  · simp
  · simp [Device.readReg, SpiConn.Tx, hw]
  · simp [Device.readReg, SpiConn.Tx, fillBuffer]
    omega
  · simp [Device.readReg, SpiConn.Tx, hw]

/-- C5, as stated, fails: reading address 0x40 transmits the address byte
0xC0, which has bit 7 set and bit 6 set. -/
theorem readReg_address_bit6_set :
    transmittedAddress (issued quietDevice.Conn (quietDevice.readReg 0x40 1).1.Conn)
      = some 0xC0 ∧
    Nat.testBit 0xC0 7 = true ∧ Nat.testBit 0xC0 6 = true := by
  decide

/-- C5, amended: the address byte transmitted by `readReg` is a byte with bit 7
set whose low seven bits are those of the address; in particular its bit 6 is
bit 6 of the address. -/
theorem readReg_address_byte (dev : Device F Cfg) (address n : Nat) :
    ∃ b, transmittedAddress (issued dev.Conn (dev.readReg address n).1.Conn) = some b ∧
      b < 256 ∧ b.testBit 7 = true ∧ b % 128 = address % 128 ∧
      b.testBit 6 = address.testBit 6 := by
  refine ⟨(address &&& 0x7F) ||| 0x80, ?_, ?_, ?_, ?_, ?_⟩
  · simp [transmittedAddress, Device.readReg, SpiConn.Tx, issued, List.replicate_succ]
  · have h1 : address &&& 0x7F < 2 ^ 8 := lt_of_le_of_lt Nat.and_le_right (by norm_num)
    exact Nat.or_lt_two_pow h1 (by norm_num)
  · rw [Nat.testBit_or]
    have h8 : Nat.testBit 0x80 7 = true := by decide
    simp [h8]
  · apply Nat.eq_of_testBit_eq
    intro i
    have e : (128 : Nat) = 2 ^ 7 := by norm_num
    rw [e, Nat.testBit_mod_two_pow, Nat.testBit_mod_two_pow, Nat.testBit_or, Nat.testBit_and]
    by_cases hi : i < 7
    · have h7 : Nat.testBit 0x7F i = true := by interval_cases i <;> decide
      have h8 : Nat.testBit 0x80 i = false := by interval_cases i <;> decide
      simp [hi, h7, h8]
    · simp [hi]
  · rw [Nat.testBit_or, Nat.testBit_and]
    have h7 : Nat.testBit 0x7F 6 = true := by decide
    have h8 : Nat.testBit 0x80 6 = false := by decide
    simp [h7, h8]

/-- C6: `writeReg` with an empty payload returns the device unchanged with a
nil error and issues no transaction; with a non-empty payload it issues exactly
one transaction of `1 + N` bytes, the address with bit 7 clear and its low seven
bits kept, then the payload in order, with no receive buffer, and returns that
transaction's error. -/
theorem writeReg_contract (dev : Device F Cfg) (address : Nat) (data : List Nat) :
    (data = [] →
      dev.writeReg address data = (dev, none) ∧
      issued dev.Conn (dev.writeReg address data).1.Conn = []) ∧
    (data ≠ [] →
      issued dev.Conn (dev.writeReg address data).1.Conn
        = [⟨(address &&& 0x7F) :: data, 0⟩] ∧
      ((address &&& 0x7F) :: data).length = 1 + data.length ∧
      (address &&& 0x7F).testBit 7 = false ∧
      (address &&& 0x7F) % 128 = address % 128 ∧
      (dev.writeReg address data).2
        = (dev.Conn.respond dev.Conn.log ((address &&& 0x7F) :: data)).2) := by
  constructor
  · intro h
    simp [Device.writeReg, h, issued]
  · intro h
    have hl : data.length ≠ 0 := by
      intro h0
      exact h (List.length_eq_zero.mp h0)
    refine ⟨?_, ?_, ?_, ?_, ?_⟩
    · simp [Device.writeReg, hl, issued, SpiConn.Tx]
    · simp [Nat.add_comm]
    · rw [Nat.testBit_and]
      have h7 : Nat.testBit 0x7F 7 = false := by decide
      simp [h7]
    · have e : (0x7F : Nat) = 2 ^ 7 - 1 := by norm_num
      rw [e, Nat.and_pow_two_sub_one_eq_mod]
      norm_num
    · simp [Device.writeReg, hl, SpiConn.Tx]

/-- C6 at a fresh device: writing the two bytes 0x12, 0x34 to address 0x86
issues the single transaction 0x06, 0x12, 0x34; writing nothing issues none. -/
theorem writeReg_contract_witness :
    (issued quietDevice.Conn (quietDevice.writeReg 0x86 [0x12, 0x34]).1.Conn
        = [⟨(0x86 &&& 0x7F) :: [0x12, 0x34], 0⟩] ∧
      ((0x86 &&& 0x7F) :: [0x12, 0x34]).length = 1 + [0x12, 0x34].length ∧
      (0x86 &&& 0x7F).testBit 7 = false ∧
      (0x86 &&& 0x7F) % 128 = 0x86 % 128 ∧
      (quietDevice.writeReg 0x86 [0x12, 0x34]).2
        = (quietDevice.Conn.respond quietDevice.Conn.log
            ((0x86 &&& 0x7F) :: [0x12, 0x34])).2) ∧
    (quietDevice.writeReg 0x86 [] = (quietDevice, none) ∧
      issued quietDevice.Conn (quietDevice.writeReg 0x86 []).1.Conn = []) :=
  ⟨(writeReg_contract quietDevice 0x86 [0x12, 0x34]).2 (by decide),
   (writeReg_contract quietDevice 0x86 []).1 rfl⟩

/-- C7, the code at the failing input: on a fresh device whose first bus
transaction fails, `readRegister` of register 0x0000 issues the bank-select
write (which fails, and `selRegisterBank` reports it) and then the read, and
returns a nil error with data; `writeRegister` likewise returns nil. -/
theorem readRegister_drops_bank_select_error :
    issued failFirstDevice.Conn (failFirstDevice.readRegister 0x7F 0x0000 1).1.Conn
      = [⟨[0x7F, 0x00], 0⟩, ⟨[0x80, 0x00], 2⟩] ∧
    (failFirstDevice.Conn.respond [] [0x7F, 0x00]).2 = some "EIO" ∧
    (failFirstDevice.selRegisterBank 0x7F 0).2 = some "EIO" ∧
    (failFirstDevice.readRegister 0x7F 0x0000 1).2.2 = none ∧
    (failFirstDevice.readRegister 0x7F 0x0000 1).2.1 = [0xEA] ∧
    (failFirstDevice.writeRegister 0x7F 0x0006 [0x80]).2 = none := by
  decide

/-! ## Timing -/

/-- C2, the code at the failing input: after `Start` at clock value 1000, a
`ReadData` at clock value 1500 records the interval -500 (previous minus now),
not 500, and rebases the stored timestamp to 1500. -/
theorem ReadData_interval_reversed (REG_BANK_SEL ACCEL_XOUT_H : Nat)
    (pa pg : threeAxis F Cfg → List Nat → threeAxis F Cfg) (dev : Device F Cfg) :
    ((dev.Start 1000).ReadData REG_BANK_SEL ACCEL_XOUT_H pa pg 1500).1.duration = -500 ∧
    ((dev.Start 1000).ReadData REG_BANK_SEL ACCEL_XOUT_H pa pg 1500).1.lastReading = 1500 := by
  have h := readRegister_lastReading REG_BANK_SEL (dev.Start 1000) ACCEL_XOUT_H 12
  refine ⟨?_, ?_⟩
  · simp only [Device.ReadData, Device.ReadRawData, h]
    simp [Device.Start, wrapInt64]
  · simp [Device.ReadData]

/-! ## Telemetry -/

/-- C3, the code at the failing input: the telemetry text of a sample flight
state; its keys are accRoll, accPitch, accYaw, gyroRoll, gyroPitch, gyroYaw,
roll, ritch, yaw, dT, T, so the final pitch is under "ritch" and no key is
"pitch". -/
theorem ImuDataToJson_final_pitch_key :
    sampleFlightStates.ImuDataToJson fmt2f
      = "\x7b\"accRoll\":0.00,\"accPitch\":-30.12,\"accYaw\":0.00,\"gyroRoll\":1.00,\"gyroPitch\":2.50,\"gyroYaw\":0.12,\"roll\":0.38,\"ritch\":-30.12,\"yaw\":0.00,\"dT\":-500,\"T\":1500\x7d" ∧
    jsonKeys (sampleFlightStates.ImuDataToJson fmt2f)
      = ["accRoll", "accPitch", "accYaw", "gyroRoll", "gyroPitch", "gyroYaw",
         "roll", "ritch", "yaw", "dT", "T"] ∧
    "pitch" ∉ jsonKeys (sampleFlightStates.ImuDataToJson fmt2f) := by
  decide

/-! ## Axis state -/

/-- C8, as stated, fails: on a fresh axis state, `SetData(+Inf, 0, 0)` twice
leaves the magnitude delta NaN, not zero (the length is +Inf both times, and
+Inf minus +Inf is NaN). -/
theorem SetData_infinite_length_delta :
    CalcVectorLen sqrtFloor ⟨.posInf, 0, 0⟩ = .posInf ∧
    ((floatAxis.SetData (CalcVectorLen sqrtFloor) .posInf 0 0).SetData
        (CalcVectorLen sqrtFloor) .posInf 0 0).data = ⟨.posInf, 0, 0⟩ ∧
    ((floatAxis.SetData (CalcVectorLen sqrtFloor) .posInf 0 0).SetData
        (CalcVectorLen sqrtFloor) .posInf 0 0).prevData = ⟨.posInf, 0, 0⟩ ∧
    ((floatAxis.SetData (CalcVectorLen sqrtFloor) .posInf 0 0).SetData
        (CalcVectorLen sqrtFloor) .posInf 0 0).GetDiff = .nan ∧
    ((floatAxis.SetData (CalcVectorLen sqrtFloor) .posInf 0 0).SetData
        (CalcVectorLen sqrtFloor) .posInf 0 0).GetDiff ≠ 0 := by
  decide

/-- C8, amended: after `SetData x y z` the current vector is (x, y, z), the
previous vector is the former current vector, and the magnitude delta is the
length of (x, y, z) minus the length of the former current vector, for any
scalars and any length function; after a second call with the same arguments
the delta is the length minus itself, which on float64 is zero when the length
is finite and NaN when it is not. -/
theorem SetData_contract_finite [Sub F] (CalcVectorLen : XYZ F → F) (a : threeAxis F Cfg)
    (x y z : F) (len : XYZ F64 → F64) (b : threeAxis F64 Cfg) (u v w : F64) :
    (a.SetData CalcVectorLen x y z).data = ⟨x, y, z⟩ ∧
    (a.SetData CalcVectorLen x y z).prevData = a.data ∧
    (a.SetData CalcVectorLen x y z).GetDiff
      = CalcVectorLen ⟨x, y, z⟩ - CalcVectorLen a.data ∧
    ((a.SetData CalcVectorLen x y z).SetData CalcVectorLen x y z).prevData = ⟨x, y, z⟩ ∧
    ((a.SetData CalcVectorLen x y z).SetData CalcVectorLen x y z).GetDiff
      = CalcVectorLen ⟨x, y, z⟩ - CalcVectorLen ⟨x, y, z⟩ ∧
    ((len ⟨u, v, w⟩).isFinite = true →
      ((b.SetData len u v w).SetData len u v w).GetDiff = 0) ∧
    ((len ⟨u, v, w⟩).isFinite = false →
      ((b.SetData len u v w).SetData len u v w).GetDiff = .nan) := by
  have hsub : ∀ n : F64, (n.isFinite = true → n - n = 0) ∧ (n.isFinite = false → n - n = .nan) := by
    intro n
    cases n with
    | finite q =>
      refine ⟨fun _ => ?_, fun h => ?_⟩
      · show F64.finite (q - q) = F64.finite 0
        rw [sub_self]
      · simp [F64.isFinite] at h
    | posInf => exact ⟨fun h => by simp [F64.isFinite] at h, fun _ => rfl⟩
    | negInf => exact ⟨fun h => by simp [F64.isFinite] at h, fun _ => rfl⟩
    | nan => exact ⟨fun h => by simp [F64.isFinite] at h, fun _ => rfl⟩
  refine ⟨rfl, rfl, rfl, rfl, rfl, ?_, ?_⟩
  · intro h
    exact (hsub (len ⟨u, v, w⟩)).1 h
  · intro h
    exact (hsub (len ⟨u, v, w⟩)).2 h

/-- C8, amended, on the float64 model: from a fresh axis state, `SetData(3, 4, 0)`
twice has the finite length 5 and leaves the delta zero. -/
theorem SetData_contract_finite_witness :
    CalcVectorLen sqrtFloor ⟨.finite 3, .finite 4, .finite 0⟩ = .finite 5 ∧
    (CalcVectorLen sqrtFloor ⟨.finite 3, .finite 4, .finite 0⟩).isFinite = true ∧
    ((floatAxis.SetData (CalcVectorLen sqrtFloor) (.finite 3) (.finite 4) (.finite 0)).SetData
        (CalcVectorLen sqrtFloor) (.finite 3) (.finite 4) (.finite 0)).GetDiff = 0 :=
  ⟨CalcVectorLen_three_four, by decide,
   (SetData_contract_finite (CalcVectorLen sqrtFloor) floatAxis (.finite 3) (.finite 4)
      (.finite 0) (CalcVectorLen sqrtFloor) floatAxis (.finite 3) (.finite 4)
      (.finite 0)).2.2.2.2.2.1 (by decide)⟩

/-! ## Rotation estimator -/

/-- C9: `setAccRotations` sets the accelerometer estimate to
roll = degrees(atan2(y, z)), pitch = -degrees(atan2(x, z)), yaw = 0, for any
`Atan2` and degree conversion; over the reals, with atan2(b, a) the argument of
a + bi, acceleration (x, 0, 1) gives roll 0, (0, y, 1) gives pitch 0, and
(x, 1, 0) gives roll 90. -/
theorem setAccRotations_tilt [Field F] (Atan2 : F → F → F) (toDeg : F → F)
    (fs : FlightStates F) (c : F) (gs : FlightStates ℝ) (k x y : ℝ) :
    (fs.setAccRotations Atan2 toDeg c).accRotations
      = ⟨toDeg (Atan2 fs.imuData.Acc.Data.Y fs.imuData.Acc.Data.Z),
         -toDeg (Atan2 fs.imuData.Acc.Data.X fs.imuData.Acc.Data.Z), 0⟩ ∧
    ((gs.withAcc ⟨x, 0, 1⟩).setAccRotations (fun b a => Complex.arg ⟨a, b⟩)
        (RadToDeg Real.pi) k).accRotations.Roll = 0 ∧
    ((gs.withAcc ⟨0, y, 1⟩).setAccRotations (fun b a => Complex.arg ⟨a, b⟩)
        (RadToDeg Real.pi) k).accRotations.Pitch = 0 ∧
    ((gs.withAcc ⟨x, 1, 0⟩).setAccRotations (fun b a => Complex.arg ⟨a, b⟩)
        (RadToDeg Real.pi) k).accRotations.Roll = 90 := by
  refine ⟨?_, ?_, ?_, ?_⟩
  · simp [FlightStates.setAccRotations, accelerometerDataToRollPitch]
  · simp [FlightStates.setAccRotations, accelerometerDataToRollPitch, FlightStates.withAcc,
      arg_unit_x, RadToDeg]
  · simp [FlightStates.setAccRotations, accelerometerDataToRollPitch, FlightStates.withAcc,
      arg_unit_x, RadToDeg]
  · simp only [FlightStates.setAccRotations, accelerometerDataToRollPitch, FlightStates.withAcc,
      arg_unit_y, RadToDeg]
    have hpi : Real.pi ≠ 0 := Real.pi_ne_zero
    field_simp
    ring

/-- C10: one `setGyroRotations` step adds (rate.x * dt, rate.y * dt, rate.x * dt)
to the accumulator, with dt the read interval divided by 1e9; with rate
(1, 2, 3) and an interval of 1e9 ns the accumulator gains 1 in roll, 2 in pitch
and (from the roll axis) 1 in yaw. Scalars are in a field of characteristic 0. -/
theorem setGyroRotations_step [Field F] [CharZero F] (fs : FlightStates F) (t : Int) :
    fs.setGyroRotations.gyroRotations
      = ⟨fs.gyroRotations.Roll
            + fs.imuData.Gyro.Data.X * ((fs.imuData.ReadInterval : F) / 1000000000),
         fs.gyroRotations.Pitch
            + fs.imuData.Gyro.Data.Y * ((fs.imuData.ReadInterval : F) / 1000000000),
         fs.gyroRotations.Yaw
            + fs.imuData.Gyro.Data.X * ((fs.imuData.ReadInterval : F) / 1000000000)⟩ ∧
    (FlightStates.setGyroRotations
        { fs with imuData := ⟨fs.imuData.Acc, ⟨⟨1, 2, 3⟩⟩, 1000000000, t⟩ }).gyroRotations
      = ⟨fs.gyroRotations.Roll + 1, fs.gyroRotations.Pitch + 2, fs.gyroRotations.Yaw + 1⟩ := by
  constructor
  · simp [FlightStates.setGyroRotations, gyroscopeDataToRollPitchYawChange, goDurToDt]
  · simp [FlightStates.setGyroRotations, gyroscopeDataToRollPitchYawChange, goDurToDt]

/-- C10 on rational scalars, at the sample flight state. -/
theorem setGyroRotations_step_witness :
    sampleFlightStates.setGyroRotations.gyroRotations
      = ⟨sampleFlightStates.gyroRotations.Roll
            + sampleFlightStates.imuData.Gyro.Data.X
              * ((sampleFlightStates.imuData.ReadInterval : ℚ) / 1000000000),
         sampleFlightStates.gyroRotations.Pitch
            + sampleFlightStates.imuData.Gyro.Data.Y
              * ((sampleFlightStates.imuData.ReadInterval : ℚ) / 1000000000),
         sampleFlightStates.gyroRotations.Yaw
            + sampleFlightStates.imuData.Gyro.Data.X
              * ((sampleFlightStates.imuData.ReadInterval : ℚ) / 1000000000)⟩ ∧
    (FlightStates.setGyroRotations
        { sampleFlightStates with
          imuData := ⟨sampleFlightStates.imuData.Acc, ⟨⟨1, 2, 3⟩⟩, 1000000000, 7⟩ }).gyroRotations
      = ⟨sampleFlightStates.gyroRotations.Roll + 1, sampleFlightStates.gyroRotations.Pitch + 2,
         sampleFlightStates.gyroRotations.Yaw + 1⟩ :=
  setGyroRotations_step sampleFlightStates 7

/-! ## Gyroscope integration, fusion and reset -/

/-- C11: gyroscope integration is linear in elapsed time: with the same rate
vector, a step with interval d1 followed by a step with interval d2 leaves the
accumulator that one step with interval d1 + d2 leaves; in particular two
steps of 0.5 s equal one step of 1.0 s. Scalars are in exact arithmetic (any
field). -/
theorem setGyroRotations_linear [Field F] (fs : FlightStates F) (wg : XYZ F) (d1 d2 : Int) :
    (((fs.withGyro wg d1).setGyroRotations).withGyro wg d2).setGyroRotations.gyroRotations
      = ((fs.withGyro wg (d1 + d2)).setGyroRotations).gyroRotations ∧
    (((fs.withGyro wg 500000000).setGyroRotations).withGyro wg 500000000).setGyroRotations.gyroRotations
      = ((fs.withGyro wg 1000000000).setGyroRotations).gyroRotations := by
  have key : ∀ a b : Int,
      (((fs.withGyro wg a).setGyroRotations).withGyro wg b).setGyroRotations.gyroRotations
        = ((fs.withGyro wg (a + b)).setGyroRotations).gyroRotations := by
    intro a b
    simp only [FlightStates.setGyroRotations, FlightStates.withGyro,
      gyroscopeDataToRollPitchYawChange, goDurToDt, Rotations.mk.injEq]
    push_cast
    refine ⟨?_, ?_, ?_⟩ <;> ring
  exact ⟨key d1 d2, key 500000000 500000000⟩

/-- C12: after `Set` the reported rotation is the accelerometer tilt of the
sample's acceleration with yaw 0; it is the same for any other prior flight
state (configuration and gyroscope accumulator included), gyroscope data, read
interval and read time; the gyroscope accumulator is the prior one plus the
integration step. -/
theorem Set_reports_accelerometer_tilt [Field F] (Atan2 : F → F → F) (toDeg : F → F)
    (fs gs : FlightStates F) (acc g1 g2 : XYZ F) (d1 d2 t1 t2 : Int) :
    (fs.Set Atan2 toDeg ⟨⟨acc⟩, ⟨g1⟩, d1, t1⟩).rotations
      = ⟨toDeg (Atan2 acc.Y acc.Z), -toDeg (Atan2 acc.X acc.Z), 0⟩ ∧
    (gs.Set Atan2 toDeg ⟨⟨acc⟩, ⟨g2⟩, d2, t2⟩).rotations
      = (fs.Set Atan2 toDeg ⟨⟨acc⟩, ⟨g1⟩, d1, t1⟩).rotations ∧
    (fs.Set Atan2 toDeg ⟨⟨acc⟩, ⟨g1⟩, d1, t1⟩).gyroRotations
      = ⟨fs.gyroRotations.Roll + g1.X * ((d1 : F) / 1000000000),
         fs.gyroRotations.Pitch + g1.Y * ((d1 : F) / 1000000000),
         fs.gyroRotations.Yaw + g1.X * ((d1 : F) / 1000000000)⟩ := by
  refine ⟨?_, ?_, ?_⟩ <;>
    simp [FlightStates.Set, FlightStates.setRotations, FlightStates.setGyroRotations,
      FlightStates.setAccRotations, accelerometerDataToRollPitch,
      gyroscopeDataToRollPitchYawChange, goDurToDt]

/-- C13: `Reset` sets the gyroscope accumulator to (0, 0, 0) and leaves the
accelerometer rotation, the reported rotation, the stored sample and the
configuration as they were. -/
theorem Reset_frame [Zero F] (fs : FlightStates F) :
    fs.Reset.gyroRotations = ⟨0, 0, 0⟩ ∧
    fs.Reset.accRotations = fs.accRotations ∧
    fs.Reset.rotations = fs.rotations ∧
    fs.Reset.imuData = fs.imuData ∧
    fs.Reset.Config = fs.Config := by
  simp [FlightStates.Reset]

/-! ## Register map and construction -/

/-- C14: for a 16-bit register id `r`, `reg r` has the high byte of `r` as bank
and the low byte as address, both bytes, and `r = bank * 256 + address`. -/
theorem reg_high_low (r : Nat) (h : r < 65536) :
    (reg r).bank = r / 256 ∧ (reg r).address = r % 256 ∧
    r = (reg r).bank * 256 + (reg r).address ∧
    (reg r).bank < 256 ∧ (reg r).address < 256 := by
  have hb : (reg r).bank = r / 256 := by
    simp only [reg, Nat.shiftRight_eq_div_pow]
    norm_num
    omega
  have ha : (reg r).address = r % 256 := rfl
  rw [hb, ha]
  refine ⟨rfl, rfl, ?_, ?_, ?_⟩ <;> omega

/-- C14 at register id 0x027F: bank 2, address 0x7F. -/
theorem reg_high_low_witness :
    (reg 0x027F).bank = 0x027F / 256 ∧ (reg 0x027F).address = 0x027F % 256 ∧
    0x027F = (reg 0x027F).bank * 256 + (reg 0x027F).address ∧
    (reg 0x027F).bank < 256 ∧ (reg 0x027F).address < 256 :=
  reg_high_low 0x027F (by decide)

/-- C15, as stated, fails: on a bus that opens and connects, construction with
accelerometer index 7 and gyroscope index 9, keys neither table holds, returns
a device carrying those configurations and a nil error. -/
theorem NewICM20948Driver_accepts_bad_index :
    accelerometerSensitivity (16384 : ℚ) 8192 4096 2048 7 = none ∧
    gyroFullScale (131 : ℚ) 65 32 16 9 = none ∧
    (NewICM20948Driver openPort connectQuiet 0 0 () (7 : Int) 9
        : Option (Device ℚ Int) × GoError).2 = none ∧
    (NewICM20948Driver openPort connectQuiet 0 0 () (7 : Int) 9
        : Option (Device ℚ Int) × GoError).1.isSome = true ∧
    ((NewICM20948Driver openPort connectQuiet 0 0 () (7 : Int) 9
        : Option (Device ℚ Int) × GoError).1.map (fun d => (d.acc.config, d.gyro.config)))
      = some (7, 9) := by
  decide

/-- C15, amended: `NewICM20948Driver` returns no device and the error of
`NewSPI` when opening the port fails, no device and the error of `Connect` when
connecting fails, and otherwise the fresh device with the given configurations
and a nil error, whatever the configurations are. -/
theorem NewICM20948Driver_errors [Zero F] {P DCfg : Type} (NewSPI : Int → Int → P × GoError)
    (Connect : P → SpiConn × GoError) (busNumber chipSelect : Int) (config : DCfg)
    (accConfig gyroConfig : Cfg) :
    ((NewSPI busNumber chipSelect).2 ≠ none →
      (NewICM20948Driver NewSPI Connect busNumber chipSelect config accConfig gyroConfig
        : Option (Device F Cfg) × GoError) = (none, (NewSPI busNumber chipSelect).2)) ∧
    ((NewSPI busNumber chipSelect).2 = none →
      (Connect (NewSPI busNumber chipSelect).1).2 ≠ none →
      (NewICM20948Driver NewSPI Connect busNumber chipSelect config accConfig gyroConfig
        : Option (Device F Cfg) × GoError)
        = (none, (Connect (NewSPI busNumber chipSelect).1).2)) ∧
    ((NewSPI busNumber chipSelect).2 = none →
      (Connect (NewSPI busNumber chipSelect).1).2 = none →
      (NewICM20948Driver NewSPI Connect busNumber chipSelect config accConfig gyroConfig
        : Option (Device F Cfg) × GoError)
        = (some (freshDevice (Connect (NewSPI busNumber chipSelect).1).1 accConfig gyroConfig),
           none)) := by
  refine ⟨?_, ?_, ?_⟩
  · intro h
    simp [NewICM20948Driver, h]
  · intro h1 h2
    simp [NewICM20948Driver, h1, h2]
  · intro h1 h2
    simp [NewICM20948Driver, h1, h2]

/-- C15, amended, at concrete buses: a port that cannot be opened gives its
error and no device; a bus that opens and connects gives the fresh device. -/
theorem NewICM20948Driver_errors_witness :
    ((NewICM20948Driver refusePort connectQuiet 0 0 () (7 : Int) 9
        : Option (Device ℚ Int) × GoError) = (none, (refusePort 0 0).2)) ∧
    ((NewICM20948Driver openPort connectQuiet 0 0 () (0 : Int) 3
        : Option (Device ℚ Int) × GoError)
        = (some (freshDevice (connectQuiet (openPort 0 0).1).1 0 3), none)) :=
  ⟨(NewICM20948Driver_errors refusePort connectQuiet 0 0 () (7 : Int) 9).1 (by decide),
   (NewICM20948Driver_errors openPort connectQuiet 0 0 () (0 : Int) 3).2.2 (by decide)
     (by decide)⟩

/-! ## Bank discipline and bounds -/

/-- After `selRegisterBank b` the recorded bank is `b`. -/
theorem selRegisterBank_regbank (K : Nat) (dev : Device F Cfg) (b : Nat) :
    (dev.selRegisterBank K b).1.regbank = b := by
  unfold Device.selRegisterBank Device.writeReg
  by_cases h : b = dev.regbank <;> simp [h]

/-- The data `readReg` returns has the requested length. -/
theorem readReg_length (dev : Device F Cfg) (address n : Nat) :
    (dev.readReg address n).2.1.length = n := by
  simp [Device.readReg, SpiConn.Tx, fillBuffer]
  omega

/-- The data `readRegister` returns has the requested length. -/
theorem readRegister_length (K : Nat) (dev : Device F Cfg) (r n : Nat) :
    (dev.readRegister K r n).2.1.length = n := by
  simp only [Device.readRegister]
  exact readReg_length _ _ _

/-- An access with a payload issues exactly its data transaction after the
bank selection, and leaves the recorded bank at the register's bank. -/
theorem access_from_atDataTx (K : Nat) (dev : Device F Cfg) (a : Access)
    (ha : a.hasPayload = true) :
    issued (dev.atDataTx K a).Conn (dev.access K a).Conn = [a.dataTx] ∧
    (dev.access K a).regbank = (reg a.register).bank := by
  cases a with
  | read r n =>
    constructor
    · simp [Device.atDataTx, Device.access, Device.readRegister, Device.readReg, SpiConn.Tx,
        issued, Access.dataTx, Access.register, List.replicate_succ]
    · simp only [Device.access, Device.readRegister, Access.register]
      simp only [Device.readReg]
      exact selRegisterBank_regbank _ _ _
  | write r data =>
    have hl : data.length ≠ 0 := by simpa [Access.hasPayload] using ha
    have hl2 : data ≠ [] := by
      intro h0
      exact hl (by simp [h0])
    constructor
    · simp [Device.atDataTx, Device.access, Device.writeRegister, Device.writeReg, SpiConn.Tx,
        issued, Access.dataTx, Access.register, hl2]
    · simp only [Device.access, Device.writeRegister, Access.register, hl, if_false]
      simp only [Device.writeReg, hl, if_false]
      exact selRegisterBank_regbank _ _ _

/-- With the register's bank already recorded, the bank selection changes
nothing. -/
theorem atDataTx_same_bank (K : Nat) (dev : Device F Cfg) (a : Access)
    (h : (reg a.register).bank = dev.regbank) : dev.atDataTx K a = dev := by
  simp [Device.atDataTx, Device.selRegisterBank, h]

/-- C17: after any sequence of accesses, for two consecutive accesses `a`, `b`
with payloads that target the same bank: the data transaction of `a` is issued
on a state whose recorded bank is the bank (high byte) of its register; the
bank selection of `b` changes nothing, so `b` issues its data transaction only,
again with the recorded bank equal to its register's bank. -/
theorem bank_discipline (REG_BANK_SEL : Nat) (dev : Device F Cfg) (pre : List Access)
    (a b : Access) (ha : a.hasPayload = true) (hb : b.hasPayload = true)
    (hbank : (reg a.register).bank = (reg b.register).bank) :
    ((dev.accesses REG_BANK_SEL pre).atDataTx REG_BANK_SEL a).regbank = (reg a.register).bank ∧
    issued ((dev.accesses REG_BANK_SEL pre).atDataTx REG_BANK_SEL a).Conn
        ((dev.accesses REG_BANK_SEL pre).access REG_BANK_SEL a).Conn = [a.dataTx] ∧
    (((dev.accesses REG_BANK_SEL pre).access REG_BANK_SEL a).atDataTx REG_BANK_SEL b)
      = (dev.accesses REG_BANK_SEL pre).access REG_BANK_SEL a ∧
    (((dev.accesses REG_BANK_SEL pre).access REG_BANK_SEL a).atDataTx REG_BANK_SEL b).regbank
      = (reg b.register).bank ∧
    issued ((dev.accesses REG_BANK_SEL pre).access REG_BANK_SEL a).Conn
        (((dev.accesses REG_BANK_SEL pre).access REG_BANK_SEL a).access REG_BANK_SEL b).Conn
      = [b.dataTx] ∧
    dev.accesses REG_BANK_SEL (pre ++ [a, b])
      = ((dev.accesses REG_BANK_SEL pre).access REG_BANK_SEL a).access REG_BANK_SEL b := by
  have h1 := access_from_atDataTx REG_BANK_SEL (dev.accesses REG_BANK_SEL pre) a ha
  have h2 := atDataTx_same_bank REG_BANK_SEL
    ((dev.accesses REG_BANK_SEL pre).access REG_BANK_SEL a) b (by rw [h1.2, hbank])
  have h3 := access_from_atDataTx REG_BANK_SEL
    ((dev.accesses REG_BANK_SEL pre).access REG_BANK_SEL a) b hb
  refine ⟨?_, h1.1, h2, ?_, ?_, ?_⟩
  · exact selRegisterBank_regbank _ _ _
  · exact selRegisterBank_regbank _ _ _
  · rw [h2] at h3
    exact h3.1
  · simp [Device.accesses, List.foldl_append]

/-- C17 on a fresh device: a read in bank 0, then a write and a read in bank 2. -/
theorem bank_discipline_witness :
    ((quietDevice.accesses 0x7F [.read 0x0000 1]).atDataTx 0x7F (.write 0x0214 [0x06])).regbank
      = (reg (Access.write 0x0214 [0x06]).register).bank ∧
    issued ((quietDevice.accesses 0x7F [.read 0x0000 1]).atDataTx 0x7F (.write 0x0214 [0x06])).Conn
        ((quietDevice.accesses 0x7F [.read 0x0000 1]).access 0x7F (.write 0x0214 [0x06])).Conn
      = [(Access.write 0x0214 [0x06]).dataTx] ∧
    (((quietDevice.accesses 0x7F [.read 0x0000 1]).access 0x7F (.write 0x0214 [0x06])).atDataTx
        0x7F (.read 0x0201 2))
      = (quietDevice.accesses 0x7F [.read 0x0000 1]).access 0x7F (.write 0x0214 [0x06]) ∧
    (((quietDevice.accesses 0x7F [.read 0x0000 1]).access 0x7F (.write 0x0214 [0x06])).atDataTx
        0x7F (.read 0x0201 2)).regbank
      = (reg (Access.read 0x0201 2).register).bank ∧
    issued ((quietDevice.accesses 0x7F [.read 0x0000 1]).access 0x7F (.write 0x0214 [0x06])).Conn
        (((quietDevice.accesses 0x7F [.read 0x0000 1]).access 0x7F (.write 0x0214 [0x06])).access
          0x7F (.read 0x0201 2)).Conn
      = [(Access.read 0x0201 2).dataTx] ∧
    quietDevice.accesses 0x7F ([.read 0x0000 1] ++ [.write 0x0214 [0x06], .read 0x0201 2])
      = ((quietDevice.accesses 0x7F [.read 0x0000 1]).access 0x7F (.write 0x0214 [0x06])).access
          0x7F (.read 0x0201 2) :=
  bank_discipline 0x7F quietDevice [.read 0x0000 1] (.write 0x0214 [0x06]) (.read 0x0201 2)
    (by decide) (by decide) (by decide)

/-- C19: for `b` different from the recorded bank, after `selRegisterBank b`
the recorded bank is `b` whatever error the bank-select write returned, and a
second `selRegisterBank b` returns nil, changes nothing and issues no
transaction. -/
theorem selRegisterBank_not_atomic (REG_BANK_SEL : Nat) (dev : Device F Cfg) (b : Nat)
    (h : b ≠ dev.regbank) :
    (dev.selRegisterBank REG_BANK_SEL b).1.regbank = b ∧
    (dev.selRegisterBank REG_BANK_SEL b).2
      = (dev.Conn.respond dev.Conn.log
          [REG_BANK_SEL &&& 0x7F, ((b <<< 4) % 256) &&& 0x30]).2 ∧
    (dev.selRegisterBank REG_BANK_SEL b).1.selRegisterBank REG_BANK_SEL b
      = ((dev.selRegisterBank REG_BANK_SEL b).1, none) ∧
    issued (dev.selRegisterBank REG_BANK_SEL b).1.Conn
        ((dev.selRegisterBank REG_BANK_SEL b).1.selRegisterBank REG_BANK_SEL b).1.Conn = [] := by
  have hr := selRegisterBank_regbank REG_BANK_SEL dev b
  have hs : (dev.selRegisterBank REG_BANK_SEL b).1.selRegisterBank REG_BANK_SEL b
      = ((dev.selRegisterBank REG_BANK_SEL b).1, none) := by
    generalize dev.selRegisterBank REG_BANK_SEL b = res at hr
    simp [Device.selRegisterBank, hr]
  refine ⟨hr, ?_, hs, ?_⟩
  · simp [Device.selRegisterBank, h, Device.writeReg, SpiConn.Tx]
  · rw [hs]
    simp [issued]

/-- C19 on a device whose first bus transaction fails: the bank-select write
returns an error, the recorded bank is 0 all the same, and selecting bank 0
again issues nothing. -/
theorem selRegisterBank_not_atomic_witness :
    (failFirstDevice.selRegisterBank 0x7F 0).2 = some "EIO" ∧
    ((failFirstDevice.selRegisterBank 0x7F 0).1.regbank = 0 ∧
      (failFirstDevice.selRegisterBank 0x7F 0).2
        = (failFirstDevice.Conn.respond failFirstDevice.Conn.log
            [0x7F &&& 0x7F, ((0 <<< 4) % 256) &&& 0x30]).2 ∧
      (failFirstDevice.selRegisterBank 0x7F 0).1.selRegisterBank 0x7F 0
        = ((failFirstDevice.selRegisterBank 0x7F 0).1, none) ∧
      issued (failFirstDevice.selRegisterBank 0x7F 0).1.Conn
          ((failFirstDevice.selRegisterBank 0x7F 0).1.selRegisterBank 0x7F 0).1.Conn = []) :=
  ⟨by decide, selRegisterBank_not_atomic 0x7F failFirstDevice 0 (by decide)⟩

/-- C20: `readReg` returns exactly `len` bytes whatever the bus answers, so
`WhoAmI` and `InitDevice` do not panic on `data[0]`, the raw block `ReadData`
reads has 12 bytes, and `data[6:]` is in bounds and leaves 6 bytes. -/
theorem slice_indexing_in_bounds (REG_BANK_SEL WHO_AM_I PWR_MGMT_1 ACCEL_XOUT_H : Nat)
    (InitAccelerometer InitGyroscope : Device F Cfg → Device F Cfg × GoError)
    (dev : Device F Cfg) (address n : Nat) :
    (dev.readReg address n).2.1.length = n ∧
    (dev.WhoAmI REG_BANK_SEL WHO_AM_I).isSome = true ∧
    (dev.InitDevice REG_BANK_SEL PWR_MGMT_1 InitAccelerometer InitGyroscope).isSome = true ∧
    (dev.ReadRawData REG_BANK_SEL ACCEL_XOUT_H).2.1.length = 12 ∧
    goSliceFrom (dev.ReadRawData REG_BANK_SEL ACCEL_XOUT_H).2.1 6
      = some ((dev.ReadRawData REG_BANK_SEL ACCEL_XOUT_H).2.1.drop 6) ∧
    ((dev.ReadRawData REG_BANK_SEL ACCEL_XOUT_H).2.1.drop 6).length = 6 := by
  have hlen : ∀ (d : Device F Cfg) (r : Nat), ∃ x, (d.readRegister REG_BANK_SEL r 1).2.1[0]? = some x := by
    intro d r
    have h := readRegister_length REG_BANK_SEL d r 1
    have h0 : 0 < (d.readRegister REG_BANK_SEL r 1).2.1.length := by omega
    exact ⟨_, List.getElem?_eq_getElem h0⟩
  have h12 := readRegister_length REG_BANK_SEL dev ACCEL_XOUT_H 12
  refine ⟨readReg_length _ _ _, ?_, ?_, h12, ?_, ?_⟩
  · obtain ⟨x, hx⟩ := hlen dev WHO_AM_I
    simp [Device.WhoAmI, hx]
  · obtain ⟨x, hx⟩ := hlen (dev.writeRegister REG_BANK_SEL PWR_MGMT_1 [0x80]).1 PWR_MGMT_1
    simp [Device.InitDevice, hx]
  · simp [goSliceFrom, Device.ReadRawData, h12]
  · simp [Device.ReadRawData, h12]

/-! ## Acquisition loop and delivery channel -/

/-- A producer step keeps the channel's capacity. -/
theorem producerStep_cap {I R : Type} (G : I → I × R × GoError) (s : ImuPipeline I R) :
    (s.producerStep G).cap = s.cap := by
  cases hp : s.point with
  | top =>
    by_cases hok : (G s.imu).2.2 = none <;> simp [ImuPipeline.producerStep, hp, hok]
  | send r =>
    by_cases hlt : s.buf.length < s.cap <;> simp [ImuPipeline.producerStep, hp, hlt]

/-- A consumer step keeps the channel's capacity. -/
theorem consumerStep_cap {I R : Type} (s : ImuPipeline I R) :
    s.consumerStep.cap = s.cap := by
  unfold ImuPipeline.consumerStep
  split <;> rfl

/-- A producer step keeps the buffer within capacity and the produced
samples equal to the received ones, then the buffered ones, then the one in
hand. -/
theorem producerStep_invariant {I R : Type} (G : I → I × R × GoError) (s : ImuPipeline I R)
    (h : s.buf.length ≤ s.cap ∧ s.produced = s.received ++ s.buf ++ s.point.inHand) :
    (s.producerStep G).buf.length ≤ (s.producerStep G).cap ∧
    (s.producerStep G).produced
      = (s.producerStep G).received ++ (s.producerStep G).buf
          ++ (s.producerStep G).point.inHand := by
  obtain ⟨h1, h2⟩ := h
  cases hp : s.point with
  | top =>
    rw [hp] at h2
    by_cases hok : (G s.imu).2.2 = none
    · simp [ImuPipeline.producerStep, hp, hok, LoopPoint.inHand, h1, h2]
    · simp [ImuPipeline.producerStep, hp, hok, LoopPoint.inHand, h1, h2]
  | send r =>
    rw [hp] at h2
    by_cases hlt : s.buf.length < s.cap
    · refine ⟨?_, ?_⟩
      · simp [ImuPipeline.producerStep, hp, hlt]
        omega
      · simp [ImuPipeline.producerStep, hp, hlt, LoopPoint.inHand, h2]
    · simp [ImuPipeline.producerStep, hp, hlt, LoopPoint.inHand, h1, h2]

/-- A consumer step keeps the same invariant. -/
theorem consumerStep_invariant {I R : Type} (s : ImuPipeline I R)
    (h : s.buf.length ≤ s.cap ∧ s.produced = s.received ++ s.buf ++ s.point.inHand) :
    s.consumerStep.buf.length ≤ s.consumerStep.cap ∧
    s.consumerStep.produced
      = s.consumerStep.received ++ s.consumerStep.buf ++ s.consumerStep.point.inHand := by
  obtain ⟨h1, h2⟩ := h
  unfold ImuPipeline.consumerStep
  split
  · rename_i hb
    simp [h2, hb]
  · rename_i v rest hb
    rw [hb] at h1 h2
    refine ⟨?_, ?_⟩
    · simp at h1 ⊢
      omega
    · simp [h2]

/-- Every schedule keeps the capacity and the invariant. -/
theorem run_invariant {I R : Type} (G : I → I × R × GoError) (schedule : List Actor) :
    ∀ s : ImuPipeline I R,
      (s.buf.length ≤ s.cap ∧ s.produced = s.received ++ s.buf ++ s.point.inHand) →
      (s.run G schedule).cap = s.cap ∧
      (s.run G schedule).buf.length ≤ (s.run G schedule).cap ∧
      (s.run G schedule).produced
        = (s.run G schedule).received ++ (s.run G schedule).buf
            ++ (s.run G schedule).point.inHand := by
  induction schedule with
  | nil =>
    intro s h
    exact ⟨rfl, h⟩
  | cons a rest ih =>
    intro s h
    have hstep : (s.step G a).cap = s.cap ∧
        ((s.step G a).buf.length ≤ (s.step G a).cap ∧
          (s.step G a).produced
            = (s.step G a).received ++ (s.step G a).buf ++ (s.step G a).point.inHand) := by
      cases a with
      | producer => exact ⟨producerStep_cap G s, producerStep_invariant G s h⟩
      | consumer => exact ⟨consumerStep_cap s, consumerStep_invariant s h⟩
    have h' := ih (s.step G a) hstep.2
    have e : s.run G (a :: rest) = (s.step G a).run G rest := rfl
    rw [e]
    exact ⟨h'.1.trans hstep.1, h'.2⟩

/-- C16: the channel `createImuDataChannel` makes has capacity 1; under every
schedule of producer and consumer steps it holds at most one sample, the
samples produced are exactly the received ones followed by the buffered one and
the one in the producer's hand, so the consumer has received a leading part of
the produced samples in order, and a producer at the send with a full channel
does not move. -/
theorem delivery_channel_fifo {I R : Type} (GetRotations : I → I × R × GoError) (imu : I)
    (schedule : List Actor) :
    (createImuDataChannel imu : ImuPipeline I R).cap = 1 ∧
    ((createImuDataChannel imu).run GetRotations schedule).cap = 1 ∧
    ((createImuDataChannel imu).run GetRotations schedule).buf.length ≤ 1 ∧
    ((createImuDataChannel imu).run GetRotations schedule).produced
      = ((createImuDataChannel imu).run GetRotations schedule).received
          ++ ((createImuDataChannel imu).run GetRotations schedule).buf
          ++ ((createImuDataChannel imu).run GetRotations schedule).point.inHand ∧
    ((createImuDataChannel imu).run GetRotations schedule).received
      <+: ((createImuDataChannel imu).run GetRotations schedule).produced ∧
    (∀ r, ((createImuDataChannel imu).run GetRotations schedule).point = .send r →
      ((createImuDataChannel imu).run GetRotations schedule).buf.length = 1 →
      ((createImuDataChannel imu).run GetRotations schedule).producerStep GetRotations
        = (createImuDataChannel imu).run GetRotations schedule) := by
  have h := run_invariant GetRotations schedule (createImuDataChannel imu : ImuPipeline I R)
    (by simp [createImuDataChannel, LoopPoint.inHand])
  have hc : ((createImuDataChannel imu : ImuPipeline I R).run GetRotations schedule).cap = 1 := h.1
  refine ⟨rfl, hc, ?_, h.2.2, ?_, ?_⟩
  · rw [← hc]
    exact h.2.1
  · rw [h.2.2, List.append_assoc]
    exact List.prefix_append _ _
  · intro r hp hb
    simp [ImuPipeline.producerStep, hp, hb, hc]

end Drone2
